import Mathlib

/-!
Verification development for the audio output stream manager
(`src/stream.rs` of the rodio fork under review).

The external audio backend (cpal) is modelled abstractly: a `Device` is a
record of outcome functions for the cpal calls the code performs, and the
vendor preference comparator `cmp_default_heuristics` is a field of the
device model.  Machine integers (`u16` channel counts, `u32` sample rates
and frame counts, `u32`/`u64` sample maxima) are modelled as `Nat`; no
claim under study exercises integer overflow.  The `f32` samples produced
by the mixer are modelled as rationals (`ℚ`): the only float constants the
code under study manipulates are exactly representable, and the lossy PCM
conversions performed by `cpal::Sample::from_sample` are external, so they
appear as abstract conversion parameters.  A Rust call that can panic is
given the result type `RustResult`, with `panicked` carrying the panic
message.
-/

set_option linter.unusedVariables false

namespace Rodio

/-- Outcome of a Rust computation that can panic (an `expect` or a failed
`assert!`).  `panicked` carries the panic message. -/
inductive RustResult (α : Type) where
  | panicked (msg : String)
  | returned (a : α)
  deriving Repr

/-- Model of `cpal::SampleFormat`.  The enum is `#[non_exhaustive]` in cpal;
`Other` stands for any variant outside the ten the code enumerates, which is
exactly what the wildcard arm of `init_stream` matches. -/
inductive SampleFormat where
  | I8 | I16 | I32 | I64 | U8 | U16 | U32 | U64 | F32 | F64
  | Other
  deriving DecidableEq, Repr

/-- Model of `cpal::BufferSize`. -/
inductive BufferSize where
  | Default
  | Fixed (frames : Nat)
  deriving DecidableEq, Repr

/-- Model of `cpal::SupportedBufferSize`. -/
inductive SupportedBufferSize where
  | Range (min max : Nat)
  | Unknown
  deriving DecidableEq, Repr

/-- Model of `cpal::BuildStreamError`. -/
inductive BuildStreamError where
  | DeviceNotAvailable
  | StreamConfigNotSupported
  | InvalidArgument
  | StreamIdOverflow
  | BackendSpecific (desc : String)
  deriving DecidableEq, Repr

/-- Model of `cpal::PlayStreamError`. -/
inductive PlayStreamError where
  | DeviceNotAvailable
  | BackendSpecific (desc : String)
  deriving DecidableEq, Repr

/-- Model of `cpal::DefaultStreamConfigError`. -/
inductive DefaultStreamConfigError where
  | DeviceNotAvailable
  | StreamTypeNotSupported
  | BackendSpecific (desc : String)
  deriving DecidableEq, Repr

/-- Model of `cpal::SupportedStreamConfigsError`. -/
inductive SupportedStreamConfigsError where
  | DeviceNotAvailable
  | InvalidArgument
  | BackendSpecific (desc : String)
  deriving DecidableEq, Repr

/-- Model of `cpal::DevicesError`. -/
inductive DevicesError where
  | BackendSpecific (desc : String)
  deriving DecidableEq, Repr

/-- The `StreamError` enum of `stream.rs`. -/
inductive StreamError where
  | PlayStreamError (e : PlayStreamError)
  | DefaultStreamConfigError (e : DefaultStreamConfigError)
  | BuildStreamError (e : BuildStreamError)
  | SupportedStreamConfigsError (e : SupportedStreamConfigsError)
  | NoDevice
  deriving DecidableEq, Repr

/-- The constant `HZ_44100` of `stream.rs` (`cpal::SampleRate(44_100)`;
`SampleRate` is a newtype over `u32` ordered by value). -/
def HZ_44100 : Nat := 44100

/-- The `OutputStreamConfig` record of `stream.rs`. -/
structure OutputStreamConfig where
  channel_count : Nat
  sample_rate : Nat
  buffer_size : BufferSize
  sample_format : SampleFormat
  deriving DecidableEq, Repr

/-- The `impl Default for OutputStreamConfig` of `stream.rs`. -/
def OutputStreamConfig.default : OutputStreamConfig :=
  { channel_count := 2
    sample_rate := HZ_44100
    buffer_size := BufferSize.Default
    sample_format := SampleFormat.I8 }

/-- Model of `cpal::StreamConfig` (channels, sample rate, buffer size). -/
structure StreamConfig where
  channels : Nat
  sample_rate : Nat
  buffer_size : BufferSize
  deriving DecidableEq, Repr

/-- The `impl From<&OutputStreamConfig> for StreamConfig` of `stream.rs`. -/
def StreamConfig.fromOutput (config : OutputStreamConfig) : StreamConfig :=
  { channels := config.channel_count
    sample_rate := config.sample_rate
    buffer_size := config.buffer_size }

/-- Model of `cpal::SupportedStreamConfig`: a concrete capability record. -/
structure SupportedStreamConfig where
  channels : Nat
  sample_rate : Nat
  buffer_size : SupportedBufferSize
  sample_format : SampleFormat
  deriving DecidableEq, Repr

/-- Model of `cpal::SupportedStreamConfigRange`: a capability record with a
sample-rate range. -/
structure SupportedStreamConfigRange where
  channels : Nat
  min_sample_rate : Nat
  max_sample_rate : Nat
  buffer_size : SupportedBufferSize
  sample_format : SampleFormat
  deriving DecidableEq, Repr

/-- Model of `cpal::SupportedStreamConfigRange::with_sample_rate`: fixes the
rate, keeping the other fields.  (cpal asserts the rate lies in the range;
every call site in `stream.rs` satisfies that.) -/
def SupportedStreamConfigRange.with_sample_rate
    (sf : SupportedStreamConfigRange) (rate : Nat) : SupportedStreamConfig :=
  { channels := sf.channels
    sample_rate := rate
    buffer_size := sf.buffer_size
    sample_format := sf.sample_format }

/-- Model of `cpal::SupportedStreamConfigRange::with_max_sample_rate`. -/
def SupportedStreamConfigRange.with_max_sample_rate
    (sf : SupportedStreamConfigRange) : SupportedStreamConfig :=
  sf.with_sample_rate sf.max_sample_rate

/-- Abstract model of a `cpal::Device`: a record of outcomes for the cpal
calls `stream.rs` performs on a device.  `id` models device identity (which
physical handle the resulting stream wraps); `build_output_stream` and
`play_stream` give the backend outcome of building and starting a stream
for a given concrete config and sample format; `cmp_default_heuristics`
is the vendor preference comparator of `SupportedStreamConfigRange`
(external to this repository). -/
structure Device where
  id : Nat
  build_output_stream : StreamConfig → SampleFormat → Except BuildStreamError Unit
  play_stream : StreamConfig → SampleFormat → Except PlayStreamError Unit
  default_output_config : Except DefaultStreamConfigError SupportedStreamConfig
  supported_output_configs :
    Except SupportedStreamConfigsError (List SupportedStreamConfigRange)
  cmp_default_heuristics :
    SupportedStreamConfigRange → SupportedStreamConfigRange → Ordering

/-- Abstract model of a `cpal::Host`: the default output device (if any) and
the outcome of enumerating output devices. -/
structure Host where
  default_output_device : Option Device
  output_devices : Except DevicesError (List Device)

/-- The `OutputStream` of `stream.rs`, modelled as the identity of the device
it was opened on together with the config it was opened with (the cpal stream
handle and the mixer handle carry no further observable state in this model). -/
structure OutputStream where
  deviceId : Nat
  config : OutputStreamConfig
  deriving DecidableEq, Repr

/-- The `OutputStreamBuilder` of `stream.rs`. -/
structure OutputStreamBuilder where
  device : Option Device
  config : OutputStreamConfig

/-- The `#[derive(Default)]` instance of `OutputStreamBuilder`: no device and
the default config. -/
def OutputStreamBuilder.default : OutputStreamBuilder :=
  { device := none, config := OutputStreamConfig.default }

/-- Rust `Ord::clamp` on `u32` (`FrameCount`): below `lo` gives `lo`, above
`hi` gives `hi`, otherwise the value itself.  (Rust panics when `lo > hi`;
the only theorem about a `Range` below carries `lo ≤ hi`.) -/
def rustClamp (v lo hi : Nat) : Nat :=
  if v < lo then lo else if v > hi then hi else v

/-- The `clamp_supported_buffer_size` function of `stream.rs`. -/
def clamp_supported_buffer_size
    (buffer_size : SupportedBufferSize) (preferred_size : Nat) : BufferSize :=
  match buffer_size with
  | SupportedBufferSize.Range mn mx => BufferSize.Fixed (rustClamp preferred_size mn mx)
  | SupportedBufferSize.Unknown => BufferSize.Default

/-- Rust `OutputStreamBuilder::with_device`. -/
def OutputStreamBuilder.with_device
    (self : OutputStreamBuilder) (device : Device) : OutputStreamBuilder :=
  { self with device := some device }

/-- Rust `OutputStreamBuilder::with_channels`: asserts `channel_count > 0`, then
stores the value. -/
def OutputStreamBuilder.with_channels
    (self : OutputStreamBuilder) (channel_count : Nat) :
    RustResult OutputStreamBuilder :=
  if channel_count > 0 then
    RustResult.returned
      { self with config := { self.config with channel_count := channel_count } }
  else
    RustResult.panicked ("assertion failed: channel_count > 0")

/-- Rust `OutputStreamBuilder::with_sample_rate`. -/
def OutputStreamBuilder.with_sample_rate
    (self : OutputStreamBuilder) (sample_rate : Nat) : OutputStreamBuilder :=
  { self with config := { self.config with sample_rate := sample_rate } }

/-- Rust `OutputStreamBuilder::with_buffer_size`. -/
def OutputStreamBuilder.with_buffer_size
    (self : OutputStreamBuilder) (buffer_size : BufferSize) : OutputStreamBuilder :=
  { self with config := { self.config with buffer_size := buffer_size } }

/-- Rust `OutputStreamBuilder::with_sample_format`. -/
def OutputStreamBuilder.with_sample_format
    (self : OutputStreamBuilder) (sample_format : SampleFormat) : OutputStreamBuilder :=
  { self with config := { self.config with sample_format := sample_format } }

/-- Rust `OutputStreamBuilder::with_supported_config`: copies channels, rate and
format from the supported config and clamps the buffer-size capability with
a preferred value of 1024 frames. -/
def OutputStreamBuilder.with_supported_config
    (self : OutputStreamBuilder) (config : SupportedStreamConfig) :
    OutputStreamBuilder :=
  { self with config :=
      { channel_count := config.channels
        sample_rate := config.sample_rate
        buffer_size := clamp_supported_buffer_size config.buffer_size 1024
        sample_format := config.sample_format } }

/-- Rust `OutputStreamBuilder::with_config`: copies channels, rate and buffer size
from a `StreamConfig`; the sample format is kept (the `..self.config` spread). -/
def OutputStreamBuilder.with_config
    (self : OutputStreamBuilder) (config : StreamConfig) : OutputStreamBuilder :=
  { self with config :=
      { self.config with
        channel_count := config.channels
        sample_rate := config.sample_rate
        buffer_size := config.buffer_size } }

/-- The sample-rate expansion body of `supported_output_configs` in
`stream.rs`: `vec![max-rate]`, then push the 44100 Hz variant when
`HZ_44100 < max_rate && HZ_44100 > min_rate`, then push the min-rate
variant. -/
def expandSampleRates (sf : SupportedStreamConfigRange) : List SupportedStreamConfig :=
  (sf.with_max_sample_rate ::
      (if HZ_44100 < sf.max_sample_rate ∧ HZ_44100 > sf.min_sample_rate
       then [sf.with_sample_rate HZ_44100]
       else []))
    ++ [sf.with_sample_rate sf.min_sample_rate]

/-- The order produced by `supported.sort_by(|a, b| b.cmp_default_heuristics(a))`:
`a` may precede `b` when the comparator at `(a, b)` is not `Greater`, i.e.
when `b.cmp_default_heuristics(a)` is `Less` or `Equal`. -/
def heurLE (device : Device) (a b : SupportedStreamConfigRange) : Prop :=
  (device.cmp_default_heuristics b a).isLE = true

instance (device : Device) : DecidableRel (heurLE device) := by
  intro a b
  unfold heurLE
  infer_instance

/-- The stable sort performed by `stream.rs` on the supported configuration
records (Rust `slice::sort_by` with the comparator above; modelled by the
stable `List.insertionSort`, which agrees with every stable sort on a total
transitive comparator). -/
def sortByHeuristics (device : Device) (l : List SupportedStreamConfigRange) :
    List SupportedStreamConfigRange :=
  List.insertionSort (heurLE device) l

/-- The free function `supported_output_configs` of `stream.rs`: collect the
device-reported ranges (mapping the error into `StreamError`), sort them by
the vendor heuristic in descending preference, and expand each record per
the sample-rate expansion. -/
def supported_output_configs (device : Device) :
    Except StreamError (List SupportedStreamConfig) :=
  match device.supported_output_configs with
  | Except.error e => Except.error (StreamError.SupportedStreamConfigsError e)
  | Except.ok supported =>
      Except.ok ((sortByHeuristics device supported).flatMap expandSampleRates)

/-- Rust `OutputStream::init_stream` restricted to its build outcome: dispatch on
the sample format, building a typed output stream for each of the ten PCM
formats (the typed data callbacks are modelled separately below, since the
backend outcome of registering them is abstract), and rejecting any other
format with `StreamConfigNotSupported` (the wildcard arm). -/
def OutputStream.init_stream (device : Device) (config : OutputStreamConfig) :
    Except BuildStreamError Unit :=
  let cfg := StreamConfig.fromOutput config
  match config.sample_format with
  | SampleFormat.F32 => device.build_output_stream cfg SampleFormat.F32
  | SampleFormat.F64 => device.build_output_stream cfg SampleFormat.F64
  | SampleFormat.I8 => device.build_output_stream cfg SampleFormat.I8
  | SampleFormat.I16 => device.build_output_stream cfg SampleFormat.I16
  | SampleFormat.I32 => device.build_output_stream cfg SampleFormat.I32
  | SampleFormat.I64 => device.build_output_stream cfg SampleFormat.I64
  | SampleFormat.U8 => device.build_output_stream cfg SampleFormat.U8
  | SampleFormat.U16 => device.build_output_stream cfg SampleFormat.U16
  | SampleFormat.U32 => device.build_output_stream cfg SampleFormat.U32
  | SampleFormat.U64 => device.build_output_stream cfg SampleFormat.U64
  | SampleFormat.Other => Except.error BuildStreamError.StreamConfigNotSupported

/-- Rust `OutputStream::open`: create the mixer pair, build the stream (mapping
the error into `StreamError::BuildStreamError`), start it (mapping the error
into `StreamError::PlayStreamError`), and return the handle. -/
def OutputStream.open (device : Device) (config : OutputStreamConfig) :
    Except StreamError OutputStream :=
  match OutputStream.init_stream device config with
  | Except.error e => Except.error (StreamError.BuildStreamError e)
  | Except.ok _ =>
      match device.play_stream (StreamConfig.fromOutput config) config.sample_format with
      | Except.error e => Except.error (StreamError.PlayStreamError e)
      | Except.ok _ => Except.ok { deviceId := device.id, config := config }

/-- Rust `OutputStreamBuilder::open_stream`: `expect("output device specified")`
on the optional device, then `OutputStream::open`. -/
def OutputStreamBuilder.open_stream (self : OutputStreamBuilder) :
    RustResult (Except StreamError OutputStream) :=
  match self.device with
  | none => RustResult.panicked ("output device specified")
  | some device => RustResult.returned (OutputStream.open device self.config)

/-- The `for` loop inside `try_open_stream`: attempt each supported config
through `Self::default().with_supported_config(..).open_stream()`, return the
first success, and fall back to the original error when the list is
exhausted.  A panic inside an attempt propagates. -/
def tryFallbackConfigs :
    List SupportedStreamConfig → StreamError →
    RustResult (Except StreamError OutputStream)
  | [], err => RustResult.returned (Except.error err)
  | c :: rest, err =>
      match (OutputStreamBuilder.default.with_supported_config c).open_stream with
      | RustResult.panicked m => RustResult.panicked m
      | RustResult.returned (Except.ok handle) =>
          RustResult.returned (Except.ok handle)
      | RustResult.returned (Except.error _) => tryFallbackConfigs rest err

/-- Rust `OutputStreamBuilder::try_open_stream`: `expect` on the device, attempt
`OutputStream::open` with the current config, and on failure run the
fallback loop over `supported_output_configs(device)?` (an enumeration error
escapes through the `?`). -/
def OutputStreamBuilder.try_open_stream (self : OutputStreamBuilder) :
    RustResult (Except StreamError OutputStream) :=
  match self.device with
  | none => RustResult.panicked ("output device specified")
  | some device =>
      match OutputStream.open device self.config with
      | Except.ok s => RustResult.returned (Except.ok s)
      | Except.error err =>
          match supported_output_configs device with
          | Except.error e => RustResult.returned (Except.error e)
          | Except.ok configs => tryFallbackConfigs configs err

/-- Rust `OutputStreamBuilder::from_device`: seed a default builder with the given
device and its default output config (mapping the error into
`StreamError::DefaultStreamConfigError`). -/
def OutputStreamBuilder.from_device (device : Device) :
    Except StreamError OutputStreamBuilder :=
  match device.default_output_config with
  | Except.error e => Except.error (StreamError.DefaultStreamConfigError e)
  | Except.ok default_config =>
      Except.ok
        ((OutputStreamBuilder.default.with_device device).with_supported_config
          default_config)

/-- Rust `OutputStreamBuilder::from_default_device`: `NoDevice` when the host has
no default output device, else `from_device` on it. -/
def OutputStreamBuilder.from_default_device (host : Host) :
    Except StreamError OutputStreamBuilder :=
  match host.default_output_device with
  | none => Except.error StreamError.NoDevice
  | some device => OutputStreamBuilder.from_device device

/-- The primary attempt of `try_default_stream`:
`Self::from_default_device().and_then(|x| x.open_stream())`. -/
def defaultAttempt (host : Host) : RustResult (Except StreamError OutputStream) :=
  match OutputStreamBuilder.from_default_device host with
  | Except.error e => RustResult.returned (Except.error e)
  | Except.ok b => b.open_stream

/-- One fallback attempt of `try_default_stream` on an enumerated device:
`Self::from_device(d).and_then(|x| x.try_open_stream())`. -/
def deviceAttempt (d : Device) : RustResult (Except StreamError OutputStream) :=
  match OutputStreamBuilder.from_device d with
  | Except.error e => RustResult.returned (Except.error e)
  | Except.ok b => b.try_open_stream

/-- The `devices.find_map(..).ok_or(original_err)` loop of
`try_default_stream`: first device whose attempt returns a success wins;
attempts that return an error are discarded by `.ok()`; a panic inside an
attempt propagates; an exhausted list yields the original error. -/
def findFirstStream :
    List Device → StreamError → RustResult (Except StreamError OutputStream)
  | [], original_err => RustResult.returned (Except.error original_err)
  | d :: rest, original_err =>
      match deviceAttempt d with
      | RustResult.panicked m => RustResult.panicked m
      | RustResult.returned (Except.ok s) => RustResult.returned (Except.ok s)
      | RustResult.returned (Except.error _) => findFirstStream rest original_err

/-- Rust `OutputStreamBuilder::try_default_stream`: the primary attempt, and on
failure the device walk, with an enumeration error replaced by the original
error. -/
def OutputStreamBuilder.try_default_stream (host : Host) :
    RustResult (Except StreamError OutputStream) :=
  match defaultAttempt host with
  | RustResult.panicked m => RustResult.panicked m
  | RustResult.returned (Except.ok s) => RustResult.returned (Except.ok s)
  | RustResult.returned (Except.error original_err) =>
      match host.output_devices with
      | Except.error _ignored => RustResult.returned (Except.error original_err)
      | Except.ok devices => findFirstStream devices original_err

/-- Consumer side of the mixer pair (`MixerSource<f32>`), modelled as the
list of samples it will still yield; `next` on the empty list models the
"all sources exhausted" answer of the dynamic mixer. -/
structure MixerSource where
  pending : List ℚ
  deriving DecidableEq, Repr

/-- Rust `Iterator::next` on the mixer source. -/
def MixerSource.next (s : MixerSource) : Option ℚ × MixerSource :=
  match s.pending with
  | [] => (none, ⟨[]⟩)
  | q :: rest => (some q, ⟨rest⟩)

/-- The per-slot loop shared by all ten realtime data callbacks of
`init_stream`: for each slot of the output buffer,
`samples.next().map(conv).unwrap_or(silence)`.  Returns the written buffer
and the remaining source.  `conv` abstracts the external
`cpal::Sample::from_sample` for the native type `α`. -/
def writeData {α : Type} (conv : ℚ → α) (silence : α) :
    MixerSource → List α → List α × MixerSource
  | src, [] => ([], src)
  | src, _ :: rest =>
      let step := src.next
      let out := writeData conv silence step.2 rest
      ((step.1.map conv).getD silence :: out.1, out.2)

/-- The F32 data callback: `*d = samples.next().unwrap_or(0f32)`. -/
def dataCallbackF32 : MixerSource → List ℚ → List ℚ × MixerSource :=
  writeData (fun s => s) 0

/-- The F64 data callback: convert (lossless widening, abstracted as `conv`)
with silence `0f64`. -/
def dataCallbackF64 (conv : ℚ → ℚ) : MixerSource → List ℚ → List ℚ × MixerSource :=
  writeData conv 0

/-- The I8 data callback: silence `0i8`. -/
def dataCallbackI8 (conv : ℚ → Int) : MixerSource → List Int → List Int × MixerSource :=
  writeData conv 0

/-- The I16 data callback: silence `0i16`. -/
def dataCallbackI16 (conv : ℚ → Int) : MixerSource → List Int → List Int × MixerSource :=
  writeData conv 0

/-- The I32 data callback: silence `0i32`. -/
def dataCallbackI32 (conv : ℚ → Int) : MixerSource → List Int → List Int × MixerSource :=
  writeData conv 0

/-- The I64 data callback: silence `0i64`. -/
def dataCallbackI64 (conv : ℚ → Int) : MixerSource → List Int → List Int × MixerSource :=
  writeData conv 0

/-- Rust `u8::MAX`. -/
def u8MAX : Nat := 255

/-- Rust `u16::MAX`. -/
def u16MAX : Nat := 65535

/-- Rust `u32::MAX`. -/
def u32MAX : Nat := 4294967295

/-- Rust `u64::MAX`. -/
def u64MAX : Nat := 18446744073709551615

/-- The U8 data callback: silence `u8::MAX / 2` (integer division). -/
def dataCallbackU8 (conv : ℚ → Nat) : MixerSource → List Nat → List Nat × MixerSource :=
  writeData conv (u8MAX / 2)

/-- The U16 data callback: silence `u16::MAX / 2`. -/
def dataCallbackU16 (conv : ℚ → Nat) : MixerSource → List Nat → List Nat × MixerSource :=
  writeData conv (u16MAX / 2)

/-- The U32 data callback: silence `u32::MAX / 2`. -/
def dataCallbackU32 (conv : ℚ → Nat) : MixerSource → List Nat → List Nat × MixerSource :=
  writeData conv (u32MAX / 2)

/-- The U64 data callback: silence `u64::MAX / 2`. -/
def dataCallbackU64 (conv : ℚ → Nat) : MixerSource → List Nat → List Nat × MixerSource :=
  writeData conv (u64MAX / 2)

/-! Concrete fixtures used to instantiate the theorems below. -/

/-- A fixed capability range used in concrete instantiations. -/
def sampleRange : SupportedStreamConfigRange :=
  { channels := 2
    min_sample_rate := 44100
    max_sample_rate := 44100
    buffer_size := SupportedBufferSize.Unknown
    sample_format := SampleFormat.F32 }

/-- A concrete device on which every build attempt fails and which reports a
single supported configuration range. -/
def failingDevice : Device :=
  { id := 7
    build_output_stream := fun _ _ => Except.error BuildStreamError.DeviceNotAvailable
    play_stream := fun _ _ => Except.ok ()
    default_output_config := Except.ok sampleRange.with_max_sample_rate
    supported_output_configs := Except.ok [sampleRange]
    cmp_default_heuristics := fun _ _ => Ordering.eq }

/-- A concrete host with no default output device and failing enumeration. -/
def emptyHost : Host :=
  { default_output_device := none
    output_devices := Except.error (DevicesError.BackendSpecific ("no backend")) }

end Rodio

namespace Rodio

/-! Theorems settling the claims. -/

/-- Helper: the shared per-slot loop writes pure silence when the mixer
source is exhausted. -/
theorem writeData_empty {α : Type} (conv : ℚ → α) (silence : α) (buf : List α) :
    (writeData conv silence ⟨[]⟩ buf).1 = List.replicate buf.length silence := by
  induction buf with
  | nil => rfl
  | cons a rest ih => simp [writeData, MixerSource.next, ih, List.replicate_succ]

/-- Helper: the shape of the sample-rate expansion, stated with the claim
orientation of the 44100 Hz window. -/
theorem expandSampleRates_eq (sf : SupportedStreamConfigRange) :
    expandSampleRates sf =
      if sf.min_sample_rate < 44100 ∧ 44100 < sf.max_sample_rate
      then [sf.with_max_sample_rate, sf.with_sample_rate 44100,
            sf.with_sample_rate sf.min_sample_rate]
      else [sf.with_max_sample_rate, sf.with_sample_rate sf.min_sample_rate] := by
  unfold expandSampleRates
  by_cases h : sf.min_sample_rate < 44100 ∧ 44100 < sf.max_sample_rate
  · have h2 : HZ_44100 < sf.max_sample_rate ∧ HZ_44100 > sf.min_sample_rate :=
      ⟨h.2, h.1⟩
    rw [if_pos h, if_pos h2]
    rfl
  · have h2 : ¬(HZ_44100 < sf.max_sample_rate ∧ HZ_44100 > sf.min_sample_rate) :=
      fun hc => h ⟨hc.2, hc.1⟩
    rw [if_neg h, if_neg h2]
    rfl

/-- Helper: the device walk of `try_default_stream` yields the original
error when every attempt returns an error. -/
theorem findFirstStream_all_fail :
    ∀ (devs : List Device) (err : StreamError),
      (∀ d ∈ devs, ∃ e2, deviceAttempt d = RustResult.returned (Except.error e2)) →
      findFirstStream devs err = RustResult.returned (Except.error err)
  | [], _, _ => rfl
  | d :: rest, err, h => by
      obtain ⟨e2, he⟩ := h d (List.mem_cons_self d rest)
      unfold findFirstStream
      rw [he]
      exact findFirstStream_all_fail rest err
        (fun d2 hd2 => h d2 (List.mem_cons_of_mem d hd2))

/-- Helper: the device walk of `try_default_stream` returns the first
attempt that succeeds. -/
theorem findFirstStream_first_success :
    ∀ (pre : List Device) (d : Device) (post : List Device)
      (err : StreamError) (s : OutputStream),
      (∀ d2 ∈ pre, ∃ e2, deviceAttempt d2 = RustResult.returned (Except.error e2)) →
      deviceAttempt d = RustResult.returned (Except.ok s) →
      findFirstStream (pre ++ d :: post) err = RustResult.returned (Except.ok s)
  | [], d, post, err, s, _, hd => by
      show findFirstStream (d :: post) err = _
      unfold findFirstStream
      rw [hd]
  | p :: pre, d, post, err, s, h, hd => by
      obtain ⟨e2, he⟩ := h p (List.mem_cons_self p pre)
      show findFirstStream (p :: (pre ++ d :: post)) err = _
      unfold findFirstStream
      rw [he]
      exact findFirstStream_first_success pre d post err s
        (fun d2 hd2 => h d2 (List.mem_cons_of_mem p hd2)) hd

/-- C8: the default `OutputStreamConfig` has channel count 2, sample rate
44100 Hz, `Default` buffer size, and sample format I8. -/
theorem default_config_fields :
    OutputStreamConfig.default.channel_count = 2
    ∧ OutputStreamConfig.default.sample_rate = 44100
    ∧ OutputStreamConfig.default.buffer_size = BufferSize.Default
    ∧ OutputStreamConfig.default.sample_format = SampleFormat.I8 :=
  ⟨rfl, rfl, rfl, rfl⟩

/-- C7: for every builder state and every `StreamConfig`, `with_config`
copies channel count, sample rate and buffer size verbatim into the working
config, and leaves the sample format (and the device) unchanged. -/
theorem with_config_fields (b : OutputStreamBuilder) (cfg : StreamConfig) :
    (b.with_config cfg).config.channel_count = cfg.channels
    ∧ (b.with_config cfg).config.sample_rate = cfg.sample_rate
    ∧ (b.with_config cfg).config.buffer_size = cfg.buffer_size
    ∧ (b.with_config cfg).config.sample_format = b.config.sample_format
    ∧ (b.with_config cfg).device = b.device :=
  ⟨rfl, rfl, rfl, rfl, rfl⟩

/-- C4: for every `SupportedBufferSize::Range{min, max}` with `min ≤ max`,
`clamp_supported_buffer_size` with preferred value 1024 returns
`Fixed(clamp(1024, min, max))`, where clamp is expressed via min and max;
for `Unknown` it returns `Default`. -/
theorem clamp_buffer_size_spec (mn mx : Nat) (h : mn ≤ mx) :
    clamp_supported_buffer_size (SupportedBufferSize.Range mn mx) 1024
      = BufferSize.Fixed (Nat.max mn (Nat.min 1024 mx))
    ∧ clamp_supported_buffer_size SupportedBufferSize.Unknown 1024
      = BufferSize.Default := by
  refine ⟨?_, rfl⟩
  have hc : rustClamp 1024 mn mx = Nat.max mn (Nat.min 1024 mx) := by
    unfold rustClamp
    simp only [Nat.max_def, Nat.min_def, gt_iff_lt]
    split_ifs <;> omega
  show BufferSize.Fixed (rustClamp 1024 mn mx) = _
  rw [hc]

/-- Witness for C4 at the concrete range [128, 256] (the S3 scenario of the
spec): the preferred 1024 frames clamp down to 256. -/
theorem clamp_buffer_size_spec_witness :
    (128 ≤ 256)
    ∧ (clamp_supported_buffer_size (SupportedBufferSize.Range 128 256) 1024
        = BufferSize.Fixed (Nat.max 128 (Nat.min 1024 256))
      ∧ clamp_supported_buffer_size SupportedBufferSize.Unknown 1024
        = BufferSize.Default) :=
  ⟨by decide, clamp_buffer_size_spec 128 256 (by decide)⟩

/-- C9: `with_channels 0` panics on the assertion `channel_count > 0`, and
for every channel count at least 1 the call succeeds and stores the value. -/
theorem with_channels_spec (b : OutputStreamBuilder) :
    b.with_channels 0
      = RustResult.panicked ("assertion failed: channel_count > 0")
    ∧ ∀ n : Nat, 1 ≤ n →
        b.with_channels n
          = RustResult.returned
              { b with config := { b.config with channel_count := n } } := by
  constructor
  · rfl
  · intro n hn
    have hn2 : n > 0 := hn
    unfold OutputStreamBuilder.with_channels
    rw [if_pos hn2]

/-- Witness for C9 at the default builder and channel count 2. -/
theorem with_channels_spec_witness :
    (1 ≤ 2)
    ∧ OutputStreamBuilder.default.with_channels 2
        = RustResult.returned
            { OutputStreamBuilder.default with
              config :=
                { OutputStreamBuilder.default.config with channel_count := 2 } } :=
  ⟨by decide, (with_channels_spec OutputStreamBuilder.default).2 2 (by decide)⟩

/-- C10: when the builder holds no device, both `open_stream` and
`try_open_stream` panic through `expect("output device specified")` and never
return a `StreamError`. -/
theorem open_without_device_panics (b : OutputStreamBuilder)
    (h : b.device = none) :
    b.open_stream = RustResult.panicked ("output device specified")
    ∧ b.try_open_stream = RustResult.panicked ("output device specified") := by
  unfold OutputStreamBuilder.open_stream OutputStreamBuilder.try_open_stream
  rw [h]
  exact ⟨rfl, rfl⟩

/-- Witness for C10 at the default builder, whose device is absent. -/
theorem open_without_device_panics_witness :
    (OutputStreamBuilder.default.device = none)
    ∧ (OutputStreamBuilder.default.open_stream
        = RustResult.panicked ("output device specified")
      ∧ OutputStreamBuilder.default.try_open_stream
        = RustResult.panicked ("output device specified")) :=
  ⟨rfl, open_without_device_panics OutputStreamBuilder.default rfl⟩

/-- C6: for every device and every config whose sample format lies outside
the ten enumerated PCM formats, building fails with
`BuildStreamError::StreamConfigNotSupported`, and opening therefore returns
`StreamError::BuildStreamError(StreamConfigNotSupported)`. -/
theorem unsupported_format_rejected (device : Device)
    (config : OutputStreamConfig)
    (h : config.sample_format = SampleFormat.Other) :
    OutputStream.init_stream device config
      = Except.error BuildStreamError.StreamConfigNotSupported
    ∧ OutputStream.open device config
      = Except.error
          (StreamError.BuildStreamError BuildStreamError.StreamConfigNotSupported) := by
  have h1 : OutputStream.init_stream device config
      = Except.error BuildStreamError.StreamConfigNotSupported := by
    unfold OutputStream.init_stream
    rw [h]
  refine ⟨h1, ?_⟩
  unfold OutputStream.open
  rw [h1]

/-- Witness for C6 at a concrete device and a default config overridden with
an out-of-range sample format. -/
theorem unsupported_format_rejected_witness :
    ((OutputStreamBuilder.default.with_sample_format SampleFormat.Other).config.sample_format
        = SampleFormat.Other)
    ∧ (OutputStream.init_stream failingDevice
          (OutputStreamBuilder.default.with_sample_format SampleFormat.Other).config
        = Except.error BuildStreamError.StreamConfigNotSupported
      ∧ OutputStream.open failingDevice
          (OutputStreamBuilder.default.with_sample_format SampleFormat.Other).config
        = Except.error
            (StreamError.BuildStreamError BuildStreamError.StreamConfigNotSupported)) :=
  ⟨rfl,
    unsupported_format_rejected failingDevice
      (OutputStreamBuilder.default.with_sample_format SampleFormat.Other).config rfl⟩

/-- C2 (amended): for every supported sample format and every output buffer,
when the mixer source yields no sample the realtime callback writes the
silence value of the format into every slot: 0.0 for f32 and f64, 0 for the
signed integer formats, and `MAX / 2` under integer division for the
unsigned formats — in particular 127 (not 128) for U8, 32767 for U16,
2147483647 for U32 and 9223372036854775807 for U64. -/
theorem silence_on_underflow
    (convF64 : ℚ → ℚ) (convI8 convI16 convI32 convI64 : ℚ → Int)
    (convU8 convU16 convU32 convU64 : ℚ → Nat)
    (bf32 bf64 : List ℚ) (bi8 bi16 bi32 bi64 : List Int)
    (bu8 bu16 bu32 bu64 : List Nat) :
    (dataCallbackF32 ⟨[]⟩ bf32).1 = List.replicate bf32.length 0
    ∧ (dataCallbackF64 convF64 ⟨[]⟩ bf64).1 = List.replicate bf64.length 0
    ∧ (dataCallbackI8 convI8 ⟨[]⟩ bi8).1 = List.replicate bi8.length 0
    ∧ (dataCallbackI16 convI16 ⟨[]⟩ bi16).1 = List.replicate bi16.length 0
    ∧ (dataCallbackI32 convI32 ⟨[]⟩ bi32).1 = List.replicate bi32.length 0
    ∧ (dataCallbackI64 convI64 ⟨[]⟩ bi64).1 = List.replicate bi64.length 0
    ∧ (dataCallbackU8 convU8 ⟨[]⟩ bu8).1 = List.replicate bu8.length 127
    ∧ (dataCallbackU16 convU16 ⟨[]⟩ bu16).1 = List.replicate bu16.length 32767
    ∧ (dataCallbackU32 convU32 ⟨[]⟩ bu32).1 = List.replicate bu32.length 2147483647
    ∧ (dataCallbackU64 convU64 ⟨[]⟩ bu64).1
        = List.replicate bu64.length 9223372036854775807 :=
  ⟨writeData_empty _ _ _, writeData_empty _ _ _, writeData_empty _ _ _,
    writeData_empty _ _ _, writeData_empty _ _ _, writeData_empty _ _ _,
    writeData_empty _ _ _, writeData_empty _ _ _, writeData_empty _ _ _,
    writeData_empty _ _ _⟩

/-- C2 counterexample: with an empty mixer source, the U8 callback writes
`u8::MAX / 2 = 127` into a one-slot buffer, not 128 as the claim states. -/
theorem u8_silence_not_128 :
    (dataCallbackU8 (fun _ => 0) ⟨[]⟩ [0]).1 = [127]
    ∧ (dataCallbackU8 (fun _ => 0) ⟨[]⟩ [0]).1 ≠ [128] :=
  ⟨rfl, by decide⟩

/-- C1 (code evaluated at the failing input): on a device whose build calls
all fail and which reports one supported configuration range, the fallback
loop of `try_open_stream` panics through `expect("output device specified")`,
because the fresh `Self::default()` builder it opens each candidate with
carries no device; no success and no `StreamError` is ever returned. -/
theorem try_open_stream_panics_in_fallback :
    (OutputStreamBuilder.default.with_device failingDevice).try_open_stream
      = RustResult.panicked ("output device specified") := rfl

/-- C3: every supported configuration record expands to its max-rate variant
first, the 44100 Hz variant exactly when 44100 lies strictly within the
range, and its min-rate variant last; `supported_output_configs` applies the
expansion to the record list sorted descending by the vendor preference
comparator (stated for any total and transitive comparator), which is a
permutation of the reported list. -/
theorem sample_rate_expansion_spec (sf : SupportedStreamConfigRange)
    (device : Device) (ranges : List SupportedStreamConfigRange)
    (hconf : device.supported_output_configs = Except.ok ranges)
    (htotal : ∀ a b, heurLE device a b ∨ heurLE device b a)
    (htrans : ∀ a b c, heurLE device a b → heurLE device b c → heurLE device a c) :
    (expandSampleRates sf).head? = some sf.with_max_sample_rate
    ∧ (expandSampleRates sf).getLast?
        = some (sf.with_sample_rate sf.min_sample_rate)
    ∧ expandSampleRates sf =
        (if sf.min_sample_rate < 44100 ∧ 44100 < sf.max_sample_rate
         then [sf.with_max_sample_rate, sf.with_sample_rate 44100,
               sf.with_sample_rate sf.min_sample_rate]
         else [sf.with_max_sample_rate, sf.with_sample_rate sf.min_sample_rate])
    ∧ supported_output_configs device
        = Except.ok ((sortByHeuristics device ranges).flatMap expandSampleRates)
    ∧ List.Sorted (heurLE device) (sortByHeuristics device ranges)
    ∧ List.Perm (sortByHeuristics device ranges) ranges := by
  refine ⟨?_, ?_, expandSampleRates_eq sf, ?_, ?_, ?_⟩
  · rw [expandSampleRates_eq]
    split_ifs <;> rfl
  · rw [expandSampleRates_eq]
    split_ifs <;> rfl
  · unfold supported_output_configs
    rw [hconf]
  · haveI : IsTotal SupportedStreamConfigRange (heurLE device) := ⟨htotal⟩
    haveI : IsTrans SupportedStreamConfigRange (heurLE device) :=
      ⟨fun a b c => htrans a b c⟩
    exact List.sorted_insertionSort (heurLE device) ranges
  · exact List.perm_insertionSort (heurLE device) ranges

/-- Witness for C3 at a concrete range and a concrete device whose
comparator always answers `Equal` (total and transitive). -/
theorem sample_rate_expansion_spec_witness :
    (expandSampleRates sampleRange).head? = some sampleRange.with_max_sample_rate
    ∧ (expandSampleRates sampleRange).getLast?
        = some (sampleRange.with_sample_rate sampleRange.min_sample_rate)
    ∧ expandSampleRates sampleRange =
        (if sampleRange.min_sample_rate < 44100 ∧ 44100 < sampleRange.max_sample_rate
         then [sampleRange.with_max_sample_rate, sampleRange.with_sample_rate 44100,
               sampleRange.with_sample_rate sampleRange.min_sample_rate]
         else [sampleRange.with_max_sample_rate,
               sampleRange.with_sample_rate sampleRange.min_sample_rate])
    ∧ supported_output_configs failingDevice
        = Except.ok
            ((sortByHeuristics failingDevice [sampleRange]).flatMap expandSampleRates)
    ∧ List.Sorted (heurLE failingDevice) (sortByHeuristics failingDevice [sampleRange])
    ∧ List.Perm (sortByHeuristics failingDevice [sampleRange]) [sampleRange] :=
  sample_rate_expansion_spec sampleRange failingDevice [sampleRange] rfl
    (fun _ _ => Or.inl rfl) (fun _ _ _ _ _ => rfl)

/-- C5: `try_default_stream` returns the result of the primary attempt
(`from_default_device` then `open_stream`) when it succeeds; on its failure
it returns the original error when device enumeration fails, the first
success among the per-device attempts (`from_device` then `try_open_stream`)
otherwise, and the original error when every such attempt fails. -/
theorem try_default_stream_spec (host : Host) :
    (∀ s, defaultAttempt host = RustResult.returned (Except.ok s) →
        OutputStreamBuilder.try_default_stream host
          = RustResult.returned (Except.ok s))
    ∧ (∀ e de, defaultAttempt host = RustResult.returned (Except.error e) →
        host.output_devices = Except.error de →
        OutputStreamBuilder.try_default_stream host
          = RustResult.returned (Except.error e))
    ∧ (∀ e devs, defaultAttempt host = RustResult.returned (Except.error e) →
        host.output_devices = Except.ok devs →
        (∀ d ∈ devs, ∃ e2, deviceAttempt d = RustResult.returned (Except.error e2)) →
        OutputStreamBuilder.try_default_stream host
          = RustResult.returned (Except.error e))
    ∧ (∀ e pre d post s,
        defaultAttempt host = RustResult.returned (Except.error e) →
        host.output_devices = Except.ok (pre ++ d :: post) →
        (∀ d2 ∈ pre, ∃ e2, deviceAttempt d2 = RustResult.returned (Except.error e2)) →
        deviceAttempt d = RustResult.returned (Except.ok s) →
        OutputStreamBuilder.try_default_stream host
          = RustResult.returned (Except.ok s)) := by
  refine ⟨?_, ?_, ?_, ?_⟩
  · intro s hs
    unfold OutputStreamBuilder.try_default_stream
    rw [hs]
  · intro e de h1 h2
    unfold OutputStreamBuilder.try_default_stream
    rw [h1]
    show (match host.output_devices with
      | Except.error _ => RustResult.returned (Except.error e)
      | Except.ok devices => findFirstStream devices e)
      = RustResult.returned (Except.error e)
    rw [h2]
  · intro e devs h1 h2 hfail
    unfold OutputStreamBuilder.try_default_stream
    rw [h1]
    show (match host.output_devices with
      | Except.error _ => RustResult.returned (Except.error e)
      | Except.ok devices => findFirstStream devices e)
      = RustResult.returned (Except.error e)
    rw [h2]
    exact findFirstStream_all_fail devs e hfail
  · intro e pre d post s h1 h2 hfail hd
    unfold OutputStreamBuilder.try_default_stream
    rw [h1]
    show (match host.output_devices with
      | Except.error _ => RustResult.returned (Except.error e)
      | Except.ok devices => findFirstStream devices e)
      = RustResult.returned (Except.ok s)
    rw [h2]
    exact findFirstStream_first_success pre d post e s hfail hd

/-- Witness for C5 at a concrete host with no default device and failing
enumeration: the original `NoDevice` failure is returned. -/
theorem try_default_stream_spec_witness :
    OutputStreamBuilder.try_default_stream emptyHost
      = RustResult.returned (Except.error StreamError.NoDevice) :=
  (try_default_stream_spec emptyHost).2.1 StreamError.NoDevice
    (DevicesError.BackendSpecific ("no backend")) rfl rfl

end Rodio
